import Mathlib

/-!
Verification of the threeqlite SQLite VFS adapter.

This file contains a shallow embedding of the parts of the repository that the
verified properties talk about:

* the engine flag constants and the pure flag decoding/encoding of
  `OpenOptions` (src/sqlite-vfs/src/lib.rs, impls of `OpenOptions`,
  `OpenKind`, `OpenAccess`);
* the per-file adapter state (`FileExt` in src/sqlite-vfs/src/state.rs) and the
  adapter entry points `read`, `truncate`, `check_reserved_lock`, the
  `SIZE_HINT` branch of `file_control`, `shm_lock`
  (src/sqlite-vfs/src/io.rs; the same logic is duplicated in the sync variant
  inside src/sqlite-vfs/src/lib.rs, which agrees on everything embedded here),
  and the failure policy of `open` (src/sqlite-vfs/src/vfs.rs);
* the byte-content transformation of the example backend's
  `Handle::set_len` (src/src/handle.rs).

Backend calls are modelled by oracle structures recording the replies the
backend would give, and the adapter functions additionally return the ordered
trace of backend calls they perform, so that temporal ordering properties
(pull-before-acquire, push-before-release) can be stated.
-/

/-! ### SQLite status codes and flag constants (values from sqlite3.h) -/

def SQLITE_OK : Nat := 0
def SQLITE_ERROR : Nat := 1
def SQLITE_BUSY : Nat := 5
def SQLITE_READONLY : Nat := 8
def SQLITE_IOERR : Nat := 10
def SQLITE_NOTFOUND : Nat := 12
def SQLITE_FULL : Nat := 13
def SQLITE_CANTOPEN : Nat := 14

def SQLITE_IOERR_READ : Nat := 266
def SQLITE_IOERR_SHORT_READ : Nat := 522
def SQLITE_IOERR_WRITE : Nat := 778
def SQLITE_IOERR_TRUNCATE : Nat := 1546
def SQLITE_IOERR_UNLOCK : Nat := 2058
def SQLITE_IOERR_CHECKRESERVEDLOCK : Nat := 3594
def SQLITE_IOERR_LOCK : Nat := 3850
def SQLITE_IOERR_SHMLOCK : Nat := 5130
def SQLITE_IOERR_SHMMAP : Nat := 5386
def SQLITE_READONLY_DIRECTORY : Nat := 1544

def SQLITE_OPEN_READONLY : Nat := 0x1
def SQLITE_OPEN_READWRITE : Nat := 0x2
def SQLITE_OPEN_CREATE : Nat := 0x4
def SQLITE_OPEN_DELETEONCLOSE : Nat := 0x8
def SQLITE_OPEN_EXCLUSIVE : Nat := 0x10
def SQLITE_OPEN_MAIN_DB : Nat := 0x100
def SQLITE_OPEN_TEMP_DB : Nat := 0x200
def SQLITE_OPEN_TRANSIENT_DB : Nat := 0x400
def SQLITE_OPEN_MAIN_JOURNAL : Nat := 0x800
def SQLITE_OPEN_TEMP_JOURNAL : Nat := 0x1000
def SQLITE_OPEN_SUBJOURNAL : Nat := 0x2000
def SQLITE_OPEN_SUPER_JOURNAL : Nat := 0x4000
def SQLITE_OPEN_WAL : Nat := 0x80000

def SQLITE_SHM_UNLOCK : Nat := 1
def SQLITE_SHM_LOCK : Nat := 2
def SQLITE_SHM_SHARED : Nat := 4
def SQLITE_SHM_EXCLUSIVE : Nat := 8

/-! ### Open options (src/sqlite-vfs/src/lib.rs, `OpenKind` / `OpenAccess` /
`OpenOptions` and their `from_flags` / `to_flags` impls) -/

/-- The object type that is being opened (`OpenKind`). -/
inductive OpenKind where
  | mainDb
  | mainJournal
  | tempDb
  | tempJournal
  | transientDb
  | subJournal
  | superJournal
  | wal
deriving DecidableEq, Repr

/-- The access an object is opened with (`OpenAccess`). -/
inductive OpenAccess where
  | read
  | write
  | create
  | createNew
deriving DecidableEq, Repr

/-- `OpenOptions`: kind, access and the delete-on-close flag. -/
structure OpenOptions where
  kind : OpenKind
  access : OpenAccess
  delete_on_close : Bool
deriving DecidableEq, Repr

/-- `OpenKind::from_flags` (lib.rs lines 1909-1921): the bit tests in source
order. -/
def OpenKind.from_flags (flags : Nat) : Option OpenKind :=
  if 0 < flags &&& SQLITE_OPEN_MAIN_DB then some .mainDb
  else if 0 < flags &&& SQLITE_OPEN_MAIN_JOURNAL then some .mainJournal
  else if 0 < flags &&& SQLITE_OPEN_TEMP_DB then some .tempDb
  else if 0 < flags &&& SQLITE_OPEN_TEMP_JOURNAL then some .tempJournal
  else if 0 < flags &&& SQLITE_OPEN_TRANSIENT_DB then some .transientDb
  else if 0 < flags &&& SQLITE_OPEN_SUBJOURNAL then some .subJournal
  else if 0 < flags &&& SQLITE_OPEN_SUPER_JOURNAL then some .superJournal
  else if 0 < flags &&& SQLITE_OPEN_WAL then some .wal
  else none

/-- `OpenKind::to_flags` (lib.rs lines 1923-1934). -/
def OpenKind.to_flags : OpenKind → Nat
  | .mainDb => SQLITE_OPEN_MAIN_DB
  | .mainJournal => SQLITE_OPEN_MAIN_JOURNAL
  | .tempDb => SQLITE_OPEN_TEMP_DB
  | .tempJournal => SQLITE_OPEN_TEMP_JOURNAL
  | .transientDb => SQLITE_OPEN_TRANSIENT_DB
  | .subJournal => SQLITE_OPEN_SUBJOURNAL
  | .superJournal => SQLITE_OPEN_SUPER_JOURNAL
  | .wal => SQLITE_OPEN_WAL

/-- `OpenAccess::from_flags` (lib.rs lines 1938-1951): create+exclusive first,
then create, then readwrite, then readonly. -/
def OpenAccess.from_flags (flags : Nat) : Option OpenAccess :=
  if 0 < flags &&& SQLITE_OPEN_CREATE ∧ 0 < flags &&& SQLITE_OPEN_EXCLUSIVE then
    some .createNew
  else if 0 < flags &&& SQLITE_OPEN_CREATE then some .create
  else if 0 < flags &&& SQLITE_OPEN_READWRITE then some .write
  else if 0 < flags &&& SQLITE_OPEN_READONLY then some .read
  else none

/-- `OpenAccess::to_flags` (lib.rs lines 1953-1966). -/
def OpenAccess.to_flags : OpenAccess → Nat
  | .read => SQLITE_OPEN_READONLY
  | .write => SQLITE_OPEN_READWRITE
  | .create => SQLITE_OPEN_READWRITE ||| SQLITE_OPEN_CREATE
  | .createNew =>
      SQLITE_OPEN_READWRITE ||| SQLITE_OPEN_CREATE ||| SQLITE_OPEN_EXCLUSIVE

/-- `OpenOptions::from_flags` (lib.rs lines 1889-1895). -/
def OpenOptions.from_flags (flags : Nat) : Option OpenOptions := do
  let kind ← OpenKind.from_flags flags
  let access ← OpenAccess.from_flags flags
  pure
    { kind := kind
      access := access
      delete_on_close := decide (0 < flags &&& SQLITE_OPEN_DELETEONCLOSE) }

/-- `OpenOptions::to_flags` (lib.rs lines 1897-1905). -/
def OpenOptions.to_flags (o : OpenOptions) : Nat :=
  o.kind.to_flags ||| o.access.to_flags |||
    (if o.delete_on_close then SQLITE_OPEN_DELETEONCLOSE else 0)

/-- C6: for every combination of kind, access and delete_on_close, decoding
the encoded flag bitset yields the original options:
`from_flags (to_flags o) = some o`. -/
theorem c6_open_options_round_trip (o : OpenOptions) :
    OpenOptions.from_flags o.to_flags = some o := by
  obtain ⟨k, a, d⟩ := o
  cases k <;> cases a <;> cases d <;> decide

/-! ### Per-file adapter state (`FileExt` in src/sqlite-vfs/src/state.rs) -/

/-- WAL-index lock modes (`wip::WalIndexLock` in src/sqlite-vfs/src/lib.rs). -/
inductive WalIndexLock where
  | noLock
  | shared
  | exclusive
deriving DecidableEq, Repr

/-- The typed errors recorded into the shared last-error slot
(src/sqlite-vfs/src/error.rs); only the variants reached by the embedded
entry points are materialized, with `external` standing for any
backend-originated error. -/
inductive ErrVal where
  | unexpectedEof
  | nullPtr
  | expectedArg
  | walIndexLock
  | invalidRegionSize
  | external
deriving DecidableEq, Repr

/-- The fields of `FileExt` that the embedded entry points read or write.
`wal_index_regions` keeps only the materialized region ids: the pinned
32768-byte buffers never influence the adapter's control flow (pull/push take
them opaquely), and no embedded claim observes their contents.
`wal_index_locks` is the slot map, absent keys denoting `WalIndexLock::None`
(the adapter only ever observes the map through lookups and
exclusive-entry scans, for which this total-function view is equivalent). -/
structure FileSt where
  lastError : Option (Nat × ErrVal)
  lastErrno : Nat
  chunk_size : Option Nat
  wal_index : Option Bool
  wal_index_regions : List Nat
  wal_index_locks : Nat → WalIndexLock

/-- `FileExt::set_last_error` (state.rs lines 57-64): stores the status code
and error in the shared slot and in the per-file `last_errno`. The status
code it returns is written explicitly at each call site below. -/
def FileSt.record_error (st : FileSt) (no : Nat) (ev : ErrVal) : FileSt :=
  { st with lastError := some (no, ev), lastErrno := no }

/-- A freshly opened file's state (the initialization in vfs.rs open). -/
def FileSt.init : FileSt :=
  { lastError := none
    lastErrno := 0
    chunk_size := none
    wal_index := none
    wal_index_regions := []
    wal_index_locks := fun _ => WalIndexLock.noLock }

/-! ### Read (src/sqlite-vfs/src/io.rs `read_inner`, lines 31-61) -/

/-- Reply of the backend's `read_exact_at`: success, `UnexpectedEof`, or any
other error. -/
inductive ReadReply where
  | ok
  | unexpectedEof
  | otherErr
deriving DecidableEq, Repr

/-- `read_inner`: on `UnexpectedEof` return `SQLITE_IOERR_SHORT_READ` without
recording a last-error; on any other failure record and return
`SQLITE_IOERR_READ`. -/
def SqliteVfs.read (st : FileSt) (reply : ReadReply) : Nat × FileSt :=
  match reply with
  | .ok => (SQLITE_OK, st)
  | .unexpectedEof => (SQLITE_IOERR_SHORT_READ, st)
  | .otherErr =>
      (SQLITE_IOERR_READ, st.record_error SQLITE_IOERR_READ ErrVal.external)

/-- C8: a read whose backend `read_exact_at` fails with `UnexpectedEof`
returns the `SQLITE_IOERR_SHORT_READ` status and leaves both the shared
last-error slot and the per-file `last_errno` unchanged. -/
theorem c8_short_read (st : FileSt) :
    (SqliteVfs.read st ReadReply.unexpectedEof).1 = SQLITE_IOERR_SHORT_READ ∧
    (SqliteVfs.read st ReadReply.unexpectedEof).2.lastError = st.lastError ∧
    (SqliteVfs.read st ReadReply.unexpectedEof).2.lastErrno = st.lastErrno := by
  exact ⟨rfl, rfl, rfl⟩

/-! ### CheckReserved (src/sqlite-vfs/src/io.rs `check_reserved_lock_inner`,
lines 272-297; the sync variant at lib.rs lines 1189-1213 is identical) -/

/-- Reply of the backend's `reserved()`. -/
inductive ReservedReply where
  | ok (b : Bool)
  | err
deriving DecidableEq, Repr

/-- `check_reserved_lock_inner`: call `reserved()`, then write the boolean
through the out pointer (a null pointer turns into the `NullPtr` error).
Both failure paths record and return `SQLITE_IOERR_UNLOCK` — not the
check-reserved-lock status code. The third component is the value written
through the out pointer, if any. -/
def SqliteVfs.check_reserved_lock (st : FileSt) (reply : ReservedReply)
    (outPtrValid : Bool) : Nat × FileSt × Option Bool :=
  match reply with
  | .ok b =>
      if outPtrValid then (SQLITE_OK, st, some b)
      else
        (SQLITE_IOERR_UNLOCK,
          st.record_error SQLITE_IOERR_UNLOCK ErrVal.nullPtr, none)
  | .err =>
      (SQLITE_IOERR_UNLOCK,
        st.record_error SQLITE_IOERR_UNLOCK ErrVal.external, none)

/-- C5 (code bug): when the backend's `reserved()` fails, both source variants
return the unlock status code `SQLITE_IOERR_UNLOCK`, which differs from the
check-reserved-lock status code `SQLITE_IOERR_CHECKRESERVEDLOCK` that the
claim (and the spec's stated intent) requires. -/
theorem c5_reserved_error_status :
    (SqliteVfs.check_reserved_lock FileSt.init ReservedReply.err true).1 =
      SQLITE_IOERR_UNLOCK ∧
    SQLITE_IOERR_UNLOCK ≠ SQLITE_IOERR_CHECKRESERVEDLOCK := by
  exact ⟨rfl, by decide⟩

/-! ### Example backend set_len (src/src/handle.rs, `Handle::set_len`,
lines 81-120) -/

/-- The byte-content transformation performed by `Handle::set_len` between the
object-store get and put: with `bytes` the current content, the source runs
`if bytes.len() < size { bytes.extend(repeat(0).take(bytes.len() - size)) }
else { bytes.truncate(size) }`. The subtraction `bytes.len() - size` is Rust
`usize` arithmetic: in the taken branch `bytes.len() < size`, so it wraps
modulo 2^64 (release profile; a debug build panics instead), which is
modelled here by the explicit mod-2^64 expression. `size` is a `u64`, so
`size < 2^64`. -/
def Handle.set_len (bytes : List Nat) (size : Nat) : List Nat :=
  if bytes.length < size then
    bytes ++ List.replicate ((bytes.length + 2 ^ 64 - size) % 2 ^ 64) 0
  else
    bytes.take size

/-- C9 (code bug): growing an empty object to size 10 does not produce a
content of length 10; the wrapped subtraction makes the code extend the
content by 2^64 - 10 zero bytes instead (and a debug build panics on the
underflow). -/
theorem c9_set_len_growth_bug :
    (Handle.set_len [] 10).length = 2 ^ 64 - 10 ∧ 2 ^ 64 - 10 ≠ 10 := by
  constructor
  · simp only [Handle.set_len, List.length_nil, List.nil_append]
    rw [if_pos (by norm_num)]
    rw [List.length_replicate]
    norm_num
  · norm_num

/-! ### Truncate (src/sqlite-vfs/src/io.rs `truncate_inner`, lines 98-126;
identical sync variant at lib.rs lines 1007-1034) -/

/-- Backend calls made by the file-size entry points. -/
inductive FileEvent where
  | setLen (n : Nat)
deriving DecidableEq, Repr

/-- The chunk rounding `((size + chunk_size - 1) / chunk_size) * chunk_size`
performed in `usize` arithmetic, hence modulo 2^64 (the final multiplication
cannot overflow because `(m / c) * c ≤ m < 2^64`). Rust would panic on
`chunk_size = 0` (underflow of `0 + 0 - 1`, or division by zero), returned
here as `none`. -/
def roundToChunk (c n : Nat) : Option Nat :=
  if c = 0 then none
  else some ((n + c - 1) % 2 ^ 64 / c * c)

/-- `truncate_inner`: cast the requested `i64` size to `usize` (two's
complement, i.e. modulo 2^64), round it up to the chunk size when one is set,
and call the backend's `set_len` with the result. The trace records the
`set_len` call. `none` models the Rust panic on a zero chunk size. -/
def SqliteVfs.truncate (st : FileSt) (setLenOk : Bool) (size : Int) :
    Option (Nat × FileSt × List FileEvent) := do
  let n : Nat := (size % 2 ^ 64).toNat
  let sz ← match st.chunk_size with
    | some c => roundToChunk c n
    | none => some n
  if setLenOk then
    pure (SQLITE_OK, st, [FileEvent.setLen sz])
  else
    pure (SQLITE_IOERR_TRUNCATE,
      st.record_error SQLITE_IOERR_TRUNCATE ErrVal.external,
      [FileEvent.setLen sz])

/-- C7: a truncate to `n` with chunk size `c ≠ 0` set invokes the backend's
`set_len` on the size rounded up to the next multiple of `c` (the unique
multiple `m` of `c` with `n ≤ m < n + c`); with no chunk size set it invokes
`set_len n`. `size` ranges over the engine's nonnegative `i64` sizes and `c`
over the chunk sizes accepted by the CHUNK_SIZE file-control (an `i32`), so
the `usize` arithmetic cannot wrap. -/
theorem c7_truncate_chunk_rounding (st : FileSt) (setLenOk : Bool) (size : Int)
    (h0 : 0 ≤ size) (h1 : size < 2 ^ 63) :
    (∀ c, st.chunk_size = some c → c ≠ 0 → c < 2 ^ 31 →
      ∃ m, (SqliteVfs.truncate st setLenOk size).map (fun r => r.2.2) =
          some [FileEvent.setLen m] ∧
        c ∣ m ∧ size.toNat ≤ m ∧ m < size.toNat + c) ∧
    (st.chunk_size = none →
      (SqliteVfs.truncate st setLenOk size).map (fun r => r.2.2) =
        some [FileEvent.setLen size.toNat]) := by
  have hcast : (size % 2 ^ 64).toNat = size.toNat := by
    rw [Int.emod_eq_of_lt h0 (by omega)]
  constructor
  · intro c hc hc0 hcb
    set n := size.toNat with hn
    have hnb : n < 2 ^ 63 := by
      rw [hn]; omega
    have hsum : n + c - 1 < 2 ^ 64 := by omega
    have hmod : (n + c - 1) % 2 ^ 64 = n + c - 1 := Nat.mod_eq_of_lt hsum
    refine ⟨(n + c - 1) / c * c, ?_, dvd_mul_left c _, ?_, ?_⟩
    · simp only [SqliteVfs.truncate, hc, roundToChunk, if_neg hc0, hcast,
        Option.bind_eq_bind, Option.some_bind, hmod]
      cases setLenOk <;> rfl
    · have hdm := Nat.div_add_mod (n + c - 1) c
      have hlt : (n + c - 1) % c < c := Nat.mod_lt _ (Nat.pos_of_ne_zero hc0)
      have hcomm : (n + c - 1) / c * c = c * ((n + c - 1) / c) :=
        Nat.mul_comm _ _
      omega
    · calc (n + c - 1) / c * c ≤ n + c - 1 := Nat.div_mul_le_self _ _
        _ < n + c := by omega
  · intro hc
    simp only [SqliteVfs.truncate, hc, hcast, Option.bind_eq_bind,
      Option.some_bind]
    cases setLenOk <;> rfl

/-- Closed instance of the hypotheses of the chunked-truncate theorem:
chunk size 4096 and a truncate to 5000 invoke `set_len 8192`
(spec scenario S3), and without a chunk size a truncate to 5000 invokes
`set_len 5000`. -/
theorem c7_truncate_chunk_rounding_witness :
    ∃ m, (SqliteVfs.truncate
        { FileSt.init with chunk_size := some 4096 } true 5000).map
        (fun r => r.2.2) = some [FileEvent.setLen m] ∧
      4096 ∣ m ∧ (5000 : Int).toNat ≤ m ∧ m < (5000 : Int).toNat + 4096 :=
  (c7_truncate_chunk_rounding { FileSt.init with chunk_size := some 4096 }
    true 5000 (by decide) (by decide)).1 4096 rfl (by decide) (by decide)

/-! ### SIZE_HINT file control (src/sqlite-vfs/src/io.rs
`file_control_inner`, lines 350-393; identical sync variant at lib.rs lines
1265-1308) -/

/-- Backend replies consumed by the SIZE_HINT branch. -/
structure SizeHintBackend where
  sizeReply : Option Nat
  setLenOk : Bool

/-- Decoding of the SIZE_HINT argument pointer: a null pointer or a value
outside `u64` (negative `i64`) yields no hint
(`(p_arg as *mut i64).as_ref().cloned().and_then(u64 try_from)`). -/
def sizeHintArg (arg : Option Int) : Option Nat :=
  arg.bind fun s => if 0 ≤ s then some s.toNat else none

/-- The `SQLITE_FCNTL_SIZE_HINT` branch of `file_control_inner`: decode the
hint (missing → `SQLITE_NOTFOUND` + `ExpectedArg`), read the current size
(failure → `SQLITE_ERROR`), return `SQLITE_OK` early when
`current > size_hint`, otherwise call `set_len` on the hint rounded up to the
chunk size when one is set. The zero-chunk-size Rust panic is modelled as
`none` as in `truncate`. -/
def SqliteVfs.file_control_size_hint (st : FileSt) (be : SizeHintBackend)
    (arg : Option Int) : Option (Nat × FileSt × List FileEvent) :=
  match sizeHintArg arg with
  | none =>
      some (SQLITE_NOTFOUND,
        st.record_error SQLITE_NOTFOUND ErrVal.expectedArg, [])
  | some hint =>
    match be.sizeReply with
    | none =>
        some (SQLITE_ERROR, st.record_error SQLITE_ERROR ErrVal.external, [])
    | some current =>
      if current > hint then some (SQLITE_OK, st, [])
      else do
        let sz ← match st.chunk_size with
          | some c => roundToChunk c hint
          | none => some hint
        if be.setLenOk then
          pure (SQLITE_OK, st, [FileEvent.setLen sz])
        else
          pure (SQLITE_IOERR_TRUNCATE,
            st.record_error SQLITE_IOERR_TRUNCATE ErrVal.external,
            [FileEvent.setLen sz])

/-- C4 counterexample: with current size 1 and hint 1 the file is already at
least as large as the hint (`1 ≥ 1`), yet the adapter does call the backend's
`set_len` — the source's early return fires only on the strict comparison
`current > size_hint`. -/
theorem c4_counterexample :
    (1 : Nat) ≥ 1 ∧
    SqliteVfs.file_control_size_hint FileSt.init
        { sizeReply := some 1, setLenOk := true } (some 1) =
      some (SQLITE_OK, FileSt.init, [FileEvent.setLen 1]) := by
  exact ⟨le_refl 1, rfl⟩

/-- C4 (amended): a SIZE_HINT request with hint `h` returns `SQLITE_OK`
without calling the backend's `set_len` when the backend's current size `s`
is strictly larger than the hint (`s > h`). -/
theorem c4_size_hint_early_return (st : FileSt) (be : SizeHintBackend)
    (arg : Option Int) (h s : Nat)
    (harg : sizeHintArg arg = some h) (hsize : be.sizeReply = some s)
    (hgt : s > h) :
    SqliteVfs.file_control_size_hint st be arg = some (SQLITE_OK, st, []) := by
  simp only [SqliteVfs.file_control_size_hint, harg, hsize, if_pos hgt]

/-- Closed instance of the amended SIZE_HINT theorem: current size 2, hint 1. -/
theorem c4_size_hint_early_return_witness :
    SqliteVfs.file_control_size_hint FileSt.init
        { sizeReply := some 2, setLenOk := true } (some 1) =
      some (SQLITE_OK, FileSt.init, []) :=
  c4_size_hint_early_return FileSt.init
    { sizeReply := some 2, setLenOk := true } (some 1) 1 2 rfl rfl
    (by decide)

/-! ### Open failure policy (src/sqlite-vfs/src/vfs.rs `open_inner`, lines
94-130; identical sync variant at lib.rs lines 419-455) -/

/-- The `std::io::ErrorKind` values distinguished by the open failure
policy. -/
inductive IoErrKind where
  | permissionDenied
  | other
  | notFound
deriving DecidableEq, Repr

/-- Backend replies consumed by open: the outcome of the first
`vfs.open(name, opts)` call (`none` = success), the outcome of the read-only
retry if one is made, and the reply of `vfs.exists(name)`
(`none` = error, absorbed by `unwrap_or(false)`). -/
structure OpenBackend where
  firstOpen : Option IoErrKind
  retryOpen : Option IoErrKind
  existsReply : Option Bool

/-- The readonly-directory guard of `open_inner` (vfs.rs lines 98-105): the
kind is SuperJournal, MainJournal or Wal, the access is Create or CreateNew,
and `vfs.exists(name)` did not report the file as existing
(`!exists(name).unwrap_or(false)`). -/
def readonlyDirCase (be : OpenBackend) (opts : OpenOptions) : Prop :=
  (opts.kind = OpenKind.superJournal ∨ opts.kind = OpenKind.mainJournal ∨
    opts.kind = OpenKind.wal) ∧
  (opts.access = OpenAccess.create ∨ opts.access = OpenAccess.createNew) ∧
  ¬(be.existsReply.getD false = true)

instance (be : OpenBackend) (opts : OpenOptions) :
    Decidable (readonlyDirCase be opts) := by
  unfold readonlyDirCase; infer_instance

/-- The failure policy of `open_inner` around `state.vfs.open` (the match on
`result`): readonly-directory detection, the single read-only retry, the
directory case, and the `SQLITE_CANTOPEN` fallback. Returns the status code
and the ordered list of accesses passed to the backend's open calls. -/
def SqliteVfs.open_file (be : OpenBackend) (opts : OpenOptions) :
    Nat × List OpenAccess :=
  match be.firstOpen with
  | none => (SQLITE_OK, [opts.access])
  | some e =>
    if e = IoErrKind.permissionDenied ∧ readonlyDirCase be opts then
      (SQLITE_READONLY_DIRECTORY, [opts.access])
    else if e = IoErrKind.permissionDenied ∧ opts.access ≠ OpenAccess.read then
      match be.retryOpen with
      | none => (SQLITE_OK, [opts.access, OpenAccess.read])
      | some _ => (SQLITE_CANTOPEN, [opts.access, OpenAccess.read])
    else if e = IoErrKind.other ∧ opts.access = OpenAccess.read then
      (SQLITE_IOERR, [opts.access])
    else (SQLITE_CANTOPEN, [opts.access])

/-- C3: when the backend's first open fails with PermissionDenied: for a
SuperJournal/MainJournal/Wal kind opened with Create/CreateNew on a file that
does not exist (the `readonlyDirCase` guard), open returns
`SQLITE_READONLY_DIRECTORY` after the single initial open call (no retry); in
every other PermissionDenied case with a non-Read access, open retries
exactly once, with the access downgraded to Read. -/
theorem c3_open_permission_denied (be : OpenBackend) (opts : OpenOptions)
    (hfail : be.firstOpen = some IoErrKind.permissionDenied) :
    (readonlyDirCase be opts →
      SqliteVfs.open_file be opts =
        (SQLITE_READONLY_DIRECTORY, [opts.access])) ∧
    (¬readonlyDirCase be opts → opts.access ≠ OpenAccess.read →
      (SqliteVfs.open_file be opts).2 = [opts.access, OpenAccess.read]) := by
  constructor
  · intro hcase
    simp [SqliteVfs.open_file, hfail, hcase]
  · intro hno hread
    cases hre : be.retryOpen <;>
      simp [SqliteVfs.open_file, hfail, hre, hno, hread]

/-- Closed instance of the open failure policy (spec scenario S2): opening a
Wal file with CreateNew under PermissionDenied on a non-existing file returns
`SQLITE_READONLY_DIRECTORY` without a retry. -/
theorem c3_open_permission_denied_witness :
    SqliteVfs.open_file
        { firstOpen := some IoErrKind.permissionDenied, retryOpen := none,
          existsReply := some false }
        { kind := OpenKind.wal, access := OpenAccess.createNew,
          delete_on_close := false } =
      (SQLITE_READONLY_DIRECTORY, [OpenAccess.createNew]) :=
  (c3_open_permission_denied _ _ rfl).1 (by decide)

/-! ### Shared-memory locking (src/sqlite-vfs/src/io.rs `shm_lock`, lines
799-883; identical sync variant at lib.rs lines 1617-1706) -/

/-- WAL-index backend calls made by `shm_lock`, in call order:
`wal_index.pull(region, buf)`, `wal_index.push(region, buf)` and
`wal_index.lock(lo..hi, mode)`. -/
inductive ShmEvent where
  | pull (region : Nat)
  | push (region : Nat)
  | lockCall (lo hi : Nat) (mode : WalIndexLock)
deriving DecidableEq, Repr

/-- Whether an event is the `wal_index.lock` call. -/
def ShmEvent.isLockCall : ShmEvent → Bool
  | .lockCall _ _ _ => true
  | _ => false

/-- Reply of the backend's `wal_index.lock`: `Ok(true)`, `Ok(false)` or
`Err`. -/
inductive LockReply where
  | okTrue
  | okFalse
  | err
deriving DecidableEq, Repr

/-- Replies of the WAL-index backend consumed by `shm_lock`: whether
`pull`/`push` succeeds for a given region, and the `lock` outcome. -/
structure WalBackend where
  pullOk : Nat → Bool
  pushOk : Nat → Bool
  lockReply : LockReply

/-- Iterate a backend call over the materialized regions in order, recording
one event per call and stopping at the first failure (the source's
`for (region, data) in &mut state.wal_index_regions { if let Err(err) = ...
{ return ... } }` loops). Returns the emitted events and whether every call
succeeded. -/
def runCalls (ok : Nat → Bool) (ev : Nat → ShmEvent) :
    List Nat → List ShmEvent × Bool
  | [] => ([], true)
  | r :: rest =>
    if ok r then
      let res := runCalls ok ev rest
      (ev r :: res.1, res.2)
    else ([ev r], false)

/-- `flags & SQLITE_SHM_LOCK > 0`. -/
def shmLocking (flags : Nat) : Bool := decide (0 < flags &&& SQLITE_SHM_LOCK)

/-- `flags & SQLITE_SHM_EXCLUSIVE > 0`. -/
def shmExclusive (flags : Nat) : Bool :=
  decide (0 < flags &&& SQLITE_SHM_EXCLUSIVE)

/-- The requested WAL-index lock mode: Exclusive when acquiring exclusively,
Shared when acquiring shared, None when releasing. -/
def shmMode (flags : Nat) : WalIndexLock :=
  if shmLocking flags then
    (if shmExclusive flags then WalIndexLock.exclusive else WalIndexLock.shared)
  else WalIndexLock.noLock

/-- `state.wal_index_locks.iter().any(|(_, lock)| *lock == Exclusive)` over
the u8 slot domain. -/
def hasExclusiveSlot (locks : Nat → WalIndexLock) : Bool :=
  (List.range 256).any fun r => locks r == WalIndexLock.exclusive

/-- `state.wal_index_locks.iter().any(|(region, lock)| *lock == Exclusive &&
range.contains(region))` for the range `lo..hi` over the u8 slot domain. -/
def releasesAnyExclusive (locks : Nat → WalIndexLock) (lo hi : Nat) : Bool :=
  (List.range 256).any fun r =>
    locks r == WalIndexLock.exclusive && decide (lo ≤ r) && decide (r < hi)

/-- The pre-step of `shm_lock` (io.rs lines 836-871): when acquiring and no
slot is held in Exclusive mode, pull every materialized region; when
releasing a range that overlaps an Exclusive slot on a non-readonly index,
push every materialized region. Returns the emitted events and whether the
pre-step completed without a backend error. -/
def shmPre (be : WalBackend) (st : FileSt) (lo hi : Nat) (locking ro : Bool) :
    List ShmEvent × Bool :=
  if locking then
    if hasExclusiveSlot st.wal_index_locks then ([], true)
    else runCalls be.pullOk ShmEvent.pull st.wal_index_regions
  else
    if releasesAnyExclusive st.wal_index_locks lo hi && !ro then
      runCalls be.pushOk ShmEvent.push st.wal_index_regions
    else ([], true)

/-- `shm_lock(offset, n, flags)`: compute the u8 range and the requested
mode, fail with `SQLITE_IOERR_SHMLOCK` when no WAL index exists yet, run the
pull/push pre-step (a pre-step backend error also returns
`SQLITE_IOERR_SHMLOCK`), then call `wal_index.lock`; on `Ok(true)` record the
mode for every slot of the range, on `Ok(false)` return `SQLITE_BUSY`, on
`Err` return `SQLITE_IOERR_SHMLOCK`. Returns the status, the new file state
and the ordered trace of WAL-index backend calls. -/
def SqliteVfs.shm_lock (be : WalBackend) (st : FileSt)
    (offset n flags : Nat) : Nat × FileSt × List ShmEvent :=
  let lo := offset % 256
  let hi := (offset + n) % 256
  let mode := shmMode flags
  match st.wal_index with
  | none =>
      (SQLITE_IOERR_SHMLOCK,
        st.record_error SQLITE_IOERR_SHMLOCK ErrVal.walIndexLock, [])
  | some ro =>
    let pre := shmPre be st lo hi (shmLocking flags) ro
    if pre.2 then
      let trace := pre.1 ++ [ShmEvent.lockCall lo hi mode]
      match be.lockReply with
      | LockReply.okTrue =>
          (SQLITE_OK,
            { st with wal_index_locks := fun r =>
                if lo ≤ r ∧ r < hi then mode else st.wal_index_locks r },
            trace)
      | LockReply.okFalse => (SQLITE_BUSY, st, trace)
      | LockReply.err =>
          (SQLITE_IOERR_SHMLOCK,
            st.record_error SQLITE_IOERR_SHMLOCK ErrVal.external, trace)
    else
      (SQLITE_IOERR_SHMLOCK,
        st.record_error SQLITE_IOERR_SHMLOCK ErrVal.external, pre.1)

theorem runCalls_events (ok : Nat → Bool) (ev : Nat → ShmEvent) :
    ∀ l e, e ∈ (runCalls ok ev l).1 → ∃ r, r ∈ l ∧ e = ev r := by
  intro l
  induction l with
  | nil => intro e he; simp [runCalls] at he
  | cons r rest ih =>
    intro e he
    by_cases hok : ok r
    · simp only [runCalls, if_pos hok, List.mem_cons] at he
      rcases he with he | he
      · exact ⟨r, List.mem_cons_self r rest, he⟩
      · obtain ⟨q, hq, hev⟩ := ih e he
        exact ⟨q, List.mem_cons_of_mem r hq, hev⟩
    · simp only [runCalls, if_neg hok, List.mem_singleton] at he
      exact ⟨r, List.mem_cons_self r rest, he⟩

theorem runCalls_complete (ok : Nat → Bool) (ev : Nat → ShmEvent) :
    ∀ l, (runCalls ok ev l).2 = true → (runCalls ok ev l).1 = l.map ev := by
  intro l
  induction l with
  | nil => intro _; rfl
  | cons r rest ih =>
    intro h
    by_cases hok : ok r
    · simp only [runCalls, if_pos hok] at h ⊢
      rw [List.map_cons, ih h]
    · simp [runCalls, if_neg hok] at h

theorem takeWhile_all_append {α : Type} (p : α → Bool) (l1 l2 : List α)
    (x : α) (h : ∀ e ∈ l1, p e = true) (hx : p x = false) :
    (l1 ++ x :: l2).takeWhile p = l1 := by
  induction l1 with
  | nil => simp [List.takeWhile, hx]
  | cons a rest ih =>
    have ha : p a = true := h a (List.mem_cons_self a rest)
    simp only [List.cons_append, List.takeWhile, ha]
    show a :: List.takeWhile p (rest ++ x :: l2) = a :: rest
    rw [ih fun e he => h e (List.mem_cons_of_mem a he)]

theorem shmPre_events (be : WalBackend) (st : FileSt) (lo hi : Nat)
    (locking ro : Bool) :
    ∀ e ∈ (shmPre be st lo hi locking ro).1, e.isLockCall = false := by
  intro e he
  unfold shmPre at he
  split at he
  · split at he
    · simp at he
    · obtain ⟨q, _, rfl⟩ := runCalls_events _ _ _ _ he
      rfl
  · split at he
    · obtain ⟨q, _, rfl⟩ := runCalls_events _ _ _ _ he
      rfl
    · simp at he

/-- C1: a `shm_lock` acquisition (shared or exclusive) made while the file
holds no WAL-index slot in Exclusive mode calls `wal_index.pull` for every
materialized region before the `wal_index.lock` call: whenever the trace
contains the lock call, every region's pull event lies in the part of the
trace strictly before it. -/
theorem c1_pull_before_acquire (be : WalBackend) (st : FileSt)
    (offset n flags : Nat)
    (hlock : shmLocking flags = true)
    (hnoexcl : hasExclusiveSlot st.wal_index_locks = false) :
    ∀ lo hi mode,
      ShmEvent.lockCall lo hi mode ∈
        (SqliteVfs.shm_lock be st offset n flags).2.2 →
      ∀ r ∈ st.wal_index_regions,
        ShmEvent.pull r ∈
          ((SqliteVfs.shm_lock be st offset n flags).2.2.takeWhile
            fun e => !e.isLockCall) := by
  intro lo hi mode hmem r hr
  rcases hwi : st.wal_index with _ | ro
  · simp [SqliteVfs.shm_lock, hwi] at hmem
  · have hpre : shmPre be st (offset % 256) ((offset + n) % 256)
        (shmLocking flags) ro =
        runCalls be.pullOk ShmEvent.pull st.wal_index_regions := by
      simp [shmPre, hlock, hnoexcl]
    rcases hP2 : (runCalls be.pullOk ShmEvent.pull st.wal_index_regions).2
      with _ | _
    · exfalso
      simp only [SqliteVfs.shm_lock, hwi, hpre, hP2, if_false,
        Bool.false_eq_true] at hmem
      obtain ⟨q, _, habs⟩ :=
        runCalls_events be.pullOk ShmEvent.pull st.wal_index_regions _ hmem
      simp at habs
    · have hmap := runCalls_complete be.pullOk ShmEvent.pull
        st.wal_index_regions hP2
      have htr : (SqliteVfs.shm_lock be st offset n flags).2.2 =
          st.wal_index_regions.map ShmEvent.pull ++
            [ShmEvent.lockCall (offset % 256) ((offset + n) % 256)
              (shmMode flags)] := by
        cases hlr : be.lockReply <;>
          simp [SqliteVfs.shm_lock, hwi, hpre, hP2, hlr, hmap]
      have hall : ∀ e ∈ st.wal_index_regions.map ShmEvent.pull,
          (fun e => !e.isLockCall) e = true := by
        intro e he
        obtain ⟨q, _, rfl⟩ := List.mem_map.mp he
        rfl
      rw [htr, takeWhile_all_append _ _ []
        (ShmEvent.lockCall (offset % 256) ((offset + n) % 256)
          (shmMode flags)) hall rfl]
      exact List.mem_map_of_mem ShmEvent.pull hr

set_option maxRecDepth 8192 in
/-- Closed instance of pull-before-acquire (spec scenario S5): with regions 0
and 1 materialized, no Exclusive slot held and a shared acquisition of slot
0, `pull 0` is observed before the `wal_index.lock` call. -/
theorem c1_pull_before_acquire_witness :
    ShmEvent.pull 0 ∈
      ((SqliteVfs.shm_lock
          { pullOk := fun _ => true, pushOk := fun _ => true,
            lockReply := LockReply.okTrue }
          { FileSt.init with
              wal_index := some false
              wal_index_regions := [0, 1] }
          0 1 (SQLITE_SHM_LOCK ||| SQLITE_SHM_SHARED)).2.2.takeWhile
        fun e => !e.isLockCall) :=
  c1_pull_before_acquire _ _ 0 1 (SQLITE_SHM_LOCK ||| SQLITE_SHM_SHARED)
    (by decide) (by decide) 0 1 WalIndexLock.shared (by decide) 0 (by decide)

/-- C2: a `shm_lock` release whose range `[offset, offset+n)` overlaps a slot
currently held in Exclusive mode, on a non-readonly WAL index, calls
`wal_index.push` for every materialized region before the
`wal_index.lock(range, None)` call: every lock call in the trace carries mode
None, and every region's push event lies strictly before it. -/
theorem c2_push_before_release (be : WalBackend) (st : FileSt)
    (offset n flags : Nat)
    (hlock : shmLocking flags = false)
    (hwi : st.wal_index = some false)
    (hbound : offset + n < 256)
    (hrel : releasesAnyExclusive st.wal_index_locks offset (offset + n) =
      true) :
    ∀ lo hi m,
      ShmEvent.lockCall lo hi m ∈
        (SqliteVfs.shm_lock be st offset n flags).2.2 →
      m = WalIndexLock.noLock ∧
      ∀ r ∈ st.wal_index_regions,
        ShmEvent.push r ∈
          ((SqliteVfs.shm_lock be st offset n flags).2.2.takeWhile
            fun e => !e.isLockCall) := by
  intro lo hi m hmem
  have h1 : offset % 256 = offset := Nat.mod_eq_of_lt (by omega)
  have h2 : (offset + n) % 256 = offset + n := Nat.mod_eq_of_lt hbound
  have hpre : shmPre be st offset (offset + n) (shmLocking flags) false =
      runCalls be.pushOk ShmEvent.push st.wal_index_regions := by
    simp [shmPre, hlock, hrel]
  rcases hP2 : (runCalls be.pushOk ShmEvent.push st.wal_index_regions).2
    with _ | _
  · exfalso
    simp only [SqliteVfs.shm_lock, hwi, h1, h2, hpre, hP2, if_false,
      Bool.false_eq_true] at hmem
    obtain ⟨q, _, habs⟩ :=
      runCalls_events be.pushOk ShmEvent.push st.wal_index_regions _ hmem
    simp at habs
  · have hmap := runCalls_complete be.pushOk ShmEvent.push
      st.wal_index_regions hP2
    have htr : (SqliteVfs.shm_lock be st offset n flags).2.2 =
        st.wal_index_regions.map ShmEvent.push ++
          [ShmEvent.lockCall offset (offset + n) (shmMode flags)] := by
      cases hlr : be.lockReply <;>
        simp [SqliteVfs.shm_lock, hwi, hpre, hP2, hlr, hmap, h1, h2]
    constructor
    · rw [htr] at hmem
      rcases List.mem_append.mp hmem with hin | hin
      · obtain ⟨q, _, habs⟩ := List.mem_map.mp hin
        simp at habs
      · have := List.mem_singleton.mp hin
        have hm : m = shmMode flags := by
          injection this with _ _ h3
        rw [hm]
        simp [shmMode, hlock]
    · intro r hr
      have hall : ∀ e ∈ st.wal_index_regions.map ShmEvent.push,
          (fun e => !e.isLockCall) e = true := by
        intro e he
        obtain ⟨q, _, rfl⟩ := List.mem_map.mp he
        rfl
      rw [htr, takeWhile_all_append _ _ []
        (ShmEvent.lockCall offset (offset + n) (shmMode flags)) hall rfl]
      exact List.mem_map_of_mem ShmEvent.push hr

set_option maxRecDepth 8192 in
/-- Closed instance of push-before-release (spec scenario S6): with slot 3
held Exclusive, regions 0, 1, 2 materialized on a non-readonly index, an
unlock of slot 3 pushes region 2 before the `wal_index.lock(3..4, None)`
call. -/
theorem c2_push_before_release_witness :
    ShmEvent.push 2 ∈
      ((SqliteVfs.shm_lock
          { pullOk := fun _ => true, pushOk := fun _ => true,
            lockReply := LockReply.okTrue }
          { FileSt.init with
              wal_index := some false
              wal_index_regions := [0, 1, 2]
              wal_index_locks := fun r =>
                if r = 3 then WalIndexLock.exclusive
                else WalIndexLock.noLock }
          3 1 (SQLITE_SHM_UNLOCK ||| SQLITE_SHM_EXCLUSIVE)).2.2.takeWhile
        fun e => !e.isLockCall) :=
  (c2_push_before_release _ _ 3 1 (SQLITE_SHM_UNLOCK ||| SQLITE_SHM_EXCLUSIVE)
      (by decide) rfl (by decide) (by decide) 3 4 WalIndexLock.noLock
      (by decide)).2 2 (by decide)

/-- C10: for a `shm_lock` call that reaches the `wal_index.lock` attempt
(the trace contains the lock call), the slot map `wal_index_locks` is updated
— every slot of the range set to the requested mode — exactly when the
backend answers `Ok(true)` (status `SQLITE_OK`); on `Ok(false)` the status is
`SQLITE_BUSY` and on `Err` it is `SQLITE_IOERR_SHMLOCK`, and in both of those
cases the slot map is left unchanged. -/
theorem c10_lock_map_update (be : WalBackend) (st : FileSt)
    (offset n flags : Nat)
    (hreach : ∃ lo hi m, ShmEvent.lockCall lo hi m ∈
      (SqliteVfs.shm_lock be st offset n flags).2.2) :
    (be.lockReply = LockReply.okTrue →
      (SqliteVfs.shm_lock be st offset n flags).1 = SQLITE_OK ∧
      ∀ r, (SqliteVfs.shm_lock be st offset n flags).2.1.wal_index_locks r =
        if offset % 256 ≤ r ∧ r < (offset + n) % 256 then shmMode flags
        else st.wal_index_locks r) ∧
    (be.lockReply = LockReply.okFalse →
      (SqliteVfs.shm_lock be st offset n flags).1 = SQLITE_BUSY ∧
      (SqliteVfs.shm_lock be st offset n flags).2.1.wal_index_locks =
        st.wal_index_locks) ∧
    (be.lockReply = LockReply.err →
      (SqliteVfs.shm_lock be st offset n flags).1 = SQLITE_IOERR_SHMLOCK ∧
      (SqliteVfs.shm_lock be st offset n flags).2.1.wal_index_locks =
        st.wal_index_locks) := by
  obtain ⟨lo, hi, m, hmem⟩ := hreach
  rcases hwi : st.wal_index with _ | ro
  · simp [SqliteVfs.shm_lock, hwi] at hmem
  · by_cases hP2 : (shmPre be st (offset % 256) ((offset + n) % 256)
        (shmLocking flags) ro).2 = true
    · refine ⟨?_, ?_, ?_⟩ <;> intro hlr <;>
        simp [SqliteVfs.shm_lock, hwi, hP2, hlr, FileSt.record_error]
    · exfalso
      rw [Bool.not_eq_true] at hP2
      simp only [SqliteVfs.shm_lock, hwi, hP2, if_false,
        Bool.false_eq_true] at hmem
      have := shmPre_events be st (offset % 256) ((offset + n) % 256)
        (shmLocking flags) ro _ hmem
      simp [ShmEvent.isLockCall] at this

set_option maxRecDepth 8192 in
/-- Closed instance of the lock-map update: a successful shared acquisition
of slot 0 records mode Shared for slot 0 and returns `SQLITE_OK`. -/
theorem c10_lock_map_update_witness :
    (SqliteVfs.shm_lock
        { pullOk := fun _ => true, pushOk := fun _ => true,
          lockReply := LockReply.okTrue }
        { FileSt.init with
            wal_index := some false
            wal_index_regions := [0, 1] }
        0 1 (SQLITE_SHM_LOCK ||| SQLITE_SHM_SHARED)).1 = SQLITE_OK ∧
    (SqliteVfs.shm_lock
        { pullOk := fun _ => true, pushOk := fun _ => true,
          lockReply := LockReply.okTrue }
        { FileSt.init with
            wal_index := some false
            wal_index_regions := [0, 1] }
        0 1 (SQLITE_SHM_LOCK ||| SQLITE_SHM_SHARED)).2.1.wal_index_locks 0 =
      if 0 % 256 ≤ 0 ∧ 0 < (0 + 1) % 256 then
        shmMode (SQLITE_SHM_LOCK ||| SQLITE_SHM_SHARED)
      else
        ({ FileSt.init with
            wal_index := some false
            wal_index_regions := [0, 1] } : FileSt).wal_index_locks 0 :=
  ⟨((c10_lock_map_update _ _ 0 1 (SQLITE_SHM_LOCK ||| SQLITE_SHM_SHARED)
      ⟨0, 1, WalIndexLock.shared, by decide⟩).1 rfl).1,
   ((c10_lock_map_update _ _ 0 1 (SQLITE_SHM_LOCK ||| SQLITE_SHM_SHARED)
      ⟨0, 1, WalIndexLock.shared, by decide⟩).1 rfl).2 0⟩
